import Mathlib

/-!
# Verification of the OOPFoundation e-commerce model

Shallow embedding of the classes in `08_comprehensive_project.py`
(`Money`, `Address`, the `Product` hierarchy, `User`, `CartItem`,
`ShoppingCart`, `Order`) and of `BankAccount` from `03_encapsulation.py`,
together with proofs about the behaviour the specification describes.

Embedding conventions:
* Python `float` amounts are modelled as exact rationals (`ℚ`); the
  builtin `round(x, 2)` is modelled as exact round-half-to-even to a
  multiple of 1/100, which is Python's rounding rule on exact values.
* A Python `raise` is modelled as `Except.error` carrying the message;
  methods with no `raise` statement return `Except.ok` on every path.
  Since an exception escapes before any assignment runs, an `.error`
  result leaves the pre-state untouched by construction, matching the
  source, where every `raise` precedes the first mutation.
* The heap of shared mutable `Product` objects is modelled as a total
  map `Store : Nat → ProductData` from product id to its data;
  `Product.__eq__` compares ids, so carts and orders reference
  products by id.  References in the Python program are always valid,
  hence the map is total.
* `uuid` ids and `datetime` timestamps are left out of the state:
  no claim mentions them, and wall-clock values are outside the model.
-/

deriving instance DecidableEq for Except

/-- Round-half-to-even of a rational to an integer: the rule Python's
builtin `round` applies to the scaled value. -/
def roundHalfEven (q : ℚ) : ℤ :=
  if q - ⌊q⌋ < 1/2 then ⌊q⌋
  else if 1/2 < q - ⌊q⌋ then ⌊q⌋ + 1
  else if ⌊q⌋ % 2 = 0 then ⌊q⌋ else ⌊q⌋ + 1

/-- Python's `round(q, 2)`: round to a multiple of 1/100, ties to even. -/
def round2 (q : ℚ) : ℚ := (roundHalfEven (q * 100) : ℚ) / 100

/-- Python's `str.upper()` on the ASCII currency codes used here. -/
def pyUpper (s : String) : String := String.mk (s.data.map Char.toUpper)

/-- `Money` (08_comprehensive_project.py, lines 102-199): a rational
amount tagged with a currency string. -/
structure Money where
  amount : ℚ
  currency : String
deriving DecidableEq

/-- `Money.__init__` (lines 109-115): rejects a negative amount, rounds
to two decimals and uppercases the currency. -/
def Money.make (amount : ℚ) (currency : String) : Except String Money :=
  if amount < 0 then .error "Amount cannot be negative"
  else .ok ⟨round2 amount, pyUpper currency⟩

/-- `Money.__add__` (lines 135-142): requires matching currencies and
builds the sum through the constructor.  (The `isinstance` guard is a
static type in this embedding.) -/
def Money.add (m1 m2 : Money) : Except String Money :=
  if m1.currency ≠ m2.currency then
    .error ("Cannot add " ++ m1.currency ++ " and " ++ m2.currency)
  else Money.make (m1.amount + m2.amount) m1.currency

/-- `Money.__mul__` (lines 157-164): rejects a negative scalar and
builds the product through the constructor. -/
def Money.mul (m : Money) (scalar : ℚ) : Except String Money :=
  if scalar < 0 then .error "Cannot multiply by negative number"
  else Money.make (m.amount * scalar) m.currency

/-- `Address` (lines 63-99): five string fields.  Equality
(`Address.__eq__`, lines 92-99) is defined below and deliberately
ignores the country field, exactly as the source does. -/
structure Address where
  street : String
  city : String
  state : String
  zipCode : String
  country : String
deriving DecidableEq

/-- `Address.__eq__` (lines 92-99): compares street, city, state and
zip code only.  The `isinstance` guard is a static type here. -/
def Address.pyEq (a b : Address) : Bool :=
  a.street == b.street && a.city == b.city &&
  a.state == b.state && a.zipCode == b.zipCode

/-- The concrete `Product` subclasses (lines 296-419): `Book` carries
author, isbn and page count; `Electronics` carries brand, model, weight
and warranty; `Clothing` carries brand, size, color and material. -/
inductive ProductKind where
  | book (author isbn : String) (pages : Nat)
  | electronics (brand model : String) (weight : ℚ) (warrantyMonths : Nat)
  | clothing (brand size color material : String)
deriving DecidableEq

/-- The mutable data of one `Product` object (lines 204-294): name,
price, description and stock flag, plus the subclass payload.  Product
identity (`Product.__eq__` compares `_id`, lines 289-293) is the index
into the `Store` map, so the auto-incremented `_id` field itself is not
repeated here. -/
structure ProductData where
  name : String
  price : Money
  description : String
  inStock : Bool
  kind : ProductKind
deriving DecidableEq

/-- The heap of `Product` objects, as a total map from product id to
its data: every product reference held by a cart or order in the
Python program points at a live object. -/
abbrev Store := Nat → ProductData

/-- `get_shipping_weight` of each subclass: `Book` (lines 329-331)
returns `max(0.5, pages * 0.005)`, `Electronics` (lines 373-375) its
stored weight, `Clothing` (lines 417-419) the constant `0.8`. -/
def ProductData.shippingWeight (p : ProductData) : ℚ :=
  match p.kind with
  | .book _ _ pages => max 0.5 ((pages : ℚ) * 0.005)
  | .electronics _ _ w _ => w
  | .clothing _ _ _ _ => 0.8

/-- `Product.apply_discount` (lines 263-278): validates the percentage
and returns the reduced price amount without touching the stored
price. -/
def ProductData.applyDiscount (p : ProductData) (percentage : ℚ) : Except String ℚ :=
  if ¬(0 ≤ percentage ∧ percentage ≤ 100) then
    .error "Discount percentage must be between 0 and 100"
  else
    .ok (p.price.amount - p.price.amount * (percentage / 100))

/-- Overwrite the price of the product object `pid`, the effect of the
assignment `item.product._price = ...` in
`ShoppingCart.apply_discount_to_item` (line 741). -/
def Store.setPrice (s : Store) (pid : Nat) (m : Money) : Store :=
  fun i => if i = pid then { s i with price := m } else s i

/-- `CartItem` (lines 615-645): a shared product reference (modelled by
its id) plus a quantity.  `CartItem.__eq__` compares products, i.e.
ids. -/
structure CartItem where
  productId : Nat
  quantity : Int
deriving DecidableEq

/-- `CartItem.__init__` (lines 622-630): rejects a non-positive
quantity, then rejects an out-of-stock product. -/
def CartItem.make (s : Store) (pid : Nat) (quantity : Int) : Except String CartItem :=
  if quantity ≤ 0 then .error "Quantity must be positive"
  else if (s pid).inStock = false then .error "Product is out of stock"
  else .ok ⟨pid, quantity⟩

/-- `CartItem.total_price` (lines 632-635): `product.price * quantity`
through `Money.__mul__`. -/
def CartItem.totalPrice (s : Store) (it : CartItem) : Except String Money :=
  Money.mul (s it.productId).price (it.quantity : ℚ)

/-- The item list owned by a `ShoppingCart` (line 658).  The cart's
user and creation time play no part in any claim. -/
abbrev Cart := List CartItem

/-- The merge loop of `ShoppingCart.add_item` (lines 704-708): bump the
quantity of the first line holding this product, or report `none` if no
line holds it.  Note the bump is unvalidated in the source. -/
def mergeAdd (c : Cart) (pid : Nat) (q : Int) : Option Cart :=
  match c with
  | [] => none
  | it :: rest =>
      if it.productId = pid then some ({ it with quantity := it.quantity + q } :: rest)
      else (mergeAdd rest pid q).map (it :: ·)

/-- `ShoppingCart.add_item` (lines 699-711): reject an out-of-stock
product, merge into an existing line, otherwise append a fresh
`CartItem`.  Every operation returns the (store, cart) pair so that
effects on the shared product heap are explicit. -/
def ShoppingCart.addItem (s : Store) (c : Cart) (pid : Nat) (q : Int) :
    Except String (Store × Cart) :=
  if (s pid).inStock = false then .error ((s pid).name ++ " is out of stock")
  else
    match mergeAdd c pid q with
    | some c2 => .ok (s, c2)
    | none =>
        match CartItem.make s pid q with
        | .error e => .error e
        | .ok item => .ok (s, c ++ [item])

/-- `ShoppingCart.remove_item` (lines 713-715): keep the lines whose
product differs. -/
def ShoppingCart.removeItem (s : Store) (c : Cart) (pid : Nat) :
    Except String (Store × Cart) :=
  .ok (s, c.filter (fun it => it.productId ≠ pid))

/-- The update loop of `ShoppingCart.update_quantity` (lines 723-726):
set the quantity of the first line holding this product. -/
def setQty (c : Cart) (pid : Nat) (q : Int) : Option Cart :=
  match c with
  | [] => none
  | it :: rest =>
      if it.productId = pid then some ({ it with quantity := q } :: rest)
      else (setQty rest pid q).map (it :: ·)

/-- `ShoppingCart.update_quantity` (lines 717-728): a non-positive new
quantity removes the line; otherwise the first matching line is set,
and a missing product is an error. -/
def ShoppingCart.updateQuantity (s : Store) (c : Cart) (pid : Nat) (newQuantity : Int) :
    Except String (Store × Cart) :=
  if newQuantity ≤ 0 then ShoppingCart.removeItem s c pid
  else
    match setQty c pid newQuantity with
    | some c2 => .ok (s, c2)
    | none => .error "Product not in cart"

/-- `ShoppingCart.clear` (lines 730-732). -/
def ShoppingCart.clear (s : Store) (c : Cart) : Except String (Store × Cart) :=
  .ok (s, [])

/-- `ShoppingCart.apply_discount_to_item` (lines 734-744).  When the
product is found, the source evaluates
`isinstance(item.product, Discountable)`; `Discountable` (lines 45-58)
is a `typing.Protocol` that is NOT decorated with
`@runtime_checkable`, and CPython raises
`TypeError("Instance and class checks can only be used with
@runtime_checkable protocols")` for such a check.  The method therefore
raises on every path and never reaches the price assignment on line
741; the unreachable mutation is `Store.setPrice` above. -/
def ShoppingCart.applyDiscountToItem (s : Store) (c : Cart) (pid : Nat) (percentage : ℚ) :
    Except String (Store × Cart) :=
  if c.any (fun it => it.productId = pid) then
    .error "Instance and class checks can only be used with runtime checkable protocols"
  else .error "Product not in cart"

/-- The result record a payment strategy returns, reduced to the parts
an `Order` inspects (lines 831-839): the success flag and the
transaction id.  `CreditCard.validate_payment_info` reads the wall
clock (lines 537-552) and both strategies draw fresh `uuid`s, so the
strategy is modelled by the outcome of `process_payment`: `succeeds`
is the value of its `result["success"]`, `txId` its
`result["transaction_id"]`. -/
structure PayMethod where
  succeeds : Bool
  txId : String
deriving DecidableEq

/-- `Order` (lines 762-881): the copied item list, shipping address,
status string, optional payment strategy and transaction id.  The
`uuid` order id, owning user and creation time take no part in any
claim. -/
structure Order where
  items : List CartItem
  shippingAddress : Address
  status : String
  paymentMethod : Option PayMethod
  transactionId : Option String
deriving DecidableEq

/-- `Order.__init__` (lines 769-781): rejects an empty cart, then
copies every cart line into a fresh `CartItem` (re-running the
`CartItem` validation), and starts in status `"Pending"` with no
payment method. -/
def Order.make (s : Store) (c : Cart) (shippingAddress : Address) :
    Except String Order :=
  if c.isEmpty then .error "Cannot create order with empty cart"
  else
    match c.mapM (fun it => CartItem.make s it.productId it.quantity) with
    | .error e => .error e
    | .ok items =>
        .ok { items := items, shippingAddress := shippingAddress, status := "Pending",
              paymentMethod := none, transactionId := none }

/-- The left fold of `Money.__add__` over the line totals, the meaning
of `sum((item.total_price for item in self._items), start)`: the first
exception escapes, as in Python. -/
def sumMoney (s : Store) : List CartItem → Money → Except String Money
  | [], acc => .ok acc
  | it :: rest, acc =>
      match CartItem.totalPrice s it with
      | .error e => .error e
      | .ok t =>
          match Money.add acc t with
          | .error e => .error e
          | .ok acc2 => sumMoney s rest acc2

/-- The subtotal computed inside `Order.total_amount` (line 796):
`sum((item.total_price for item in self._items), Money(0))`, a left
fold of `Money.__add__` starting from `Money(0)`, which is the value
`⟨0, "USD"⟩`. -/
def Order.subtotal (s : Store) (o : Order) : Except String Money :=
  sumMoney s o.items (⟨0, "USD"⟩ : Money)

/-- The total shipping weight of `Order._calculate_shipping`
(lines 804-805). -/
def Order.totalWeight (s : Store) (o : Order) : ℚ :=
  (o.items.map (fun it => (s it.productId).shippingWeight * (it.quantity : ℚ))).sum

/-- Spec-side description of the subtotal: the plain sum of per-line
totals, price times quantity, with no `Money` plumbing. -/
def orderLineSum (s : Store) (o : Order) : ℚ :=
  (o.items.map (fun it => (s it.productId).price.amount * (it.quantity : ℚ))).sum

/-- The weight-banded rate of `Order._calculate_shipping`
(lines 807-813): at most 1 lb ships for 5.99, at most 5 lb for 9.99,
anything heavier for 15.99. -/
def bandedShippingRate (w : ℚ) : ℚ :=
  if w ≤ 1 then 5.99 else if w ≤ 5 then 9.99 else 15.99

/-- `Order._calculate_shipping` (lines 802-815): the banded rate goes
through the `Money` constructor (default currency USD). -/
def Order.calcShipping (s : Store) (o : Order) : Except String Money :=
  Money.make (bandedShippingRate (Order.totalWeight s o)) "USD"

/-- `Order._calculate_tax` (lines 817-820): 8.5% of the subtotal,
through the `Money` constructor (default currency USD). -/
def Order.calcTax (subtotal : Money) : Except String Money :=
  Money.make (subtotal.amount * 0.085) "USD"

/-- `Order.total_amount` (lines 793-800): subtotal + shipping + tax,
with `+` being `Money.__add__` applied left to right. -/
def Order.totalAmount (s : Store) (o : Order) : Except String Money :=
  match Order.subtotal s o with
  | .error e => .error e
  | .ok st =>
      match Order.calcShipping s o with
      | .error e => .error e
      | .ok sh =>
          match Order.calcTax st with
          | .error e => .error e
          | .ok tax =>
              match Money.add st sh with
              | .error e => .error e
              | .ok t => Money.add t tax

/-- `Order.set_payment_method` (lines 822-824). -/
def Order.setPaymentMethod (o : Order) (pm : PayMethod) : Order :=
  { o with paymentMethod := some pm }

/-- `Order.process_payment` (lines 826-839): raises when no payment
method is set, otherwise hands the total to the strategy and moves to
`"Paid"` with the transaction id recorded, or to `"Payment Failed"`. -/
def Order.processPayment (s : Store) (o : Order) : Except String (Bool × Order) :=
  match o.paymentMethod with
  | none => .error "Payment method not set"
  | some pm =>
      match Order.totalAmount s o with
      | .error e => .error e
      | .ok _total =>
          if pm.succeeds then
            .ok (true, { o with status := "Paid", transactionId := some pm.txId })
          else
            .ok (false, { o with status := "Payment Failed" })

/-- `Order.ship_order` (lines 841-846). -/
def Order.shipOrder (o : Order) : Except String Order :=
  if o.status ≠ "Paid" then .error "Cannot ship unpaid order"
  else .ok { o with status := "Shipped" }

/-- `Order.deliver_order` (lines 848-853). -/
def Order.deliverOrder (o : Order) : Except String Order :=
  if o.status ≠ "Shipped" then .error "Cannot deliver unshipped order"
  else .ok { o with status := "Delivered" }

/-- `Order.cancel_order` (lines 855-860): rejected once shipped or
delivered, otherwise the status becomes `"Cancelled"`. -/
def Order.cancelOrder (o : Order) : Except String Order :=
  if o.status = "Shipped" ∨ o.status = "Delivered" then
    .error "Cannot cancel shipped or delivered order"
  else .ok { o with status := "Cancelled" }

/-- `User` (lines 424-512): username, email, stored password hash,
owned addresses and active flag.  The `uuid` user id and creation time
take no part in any claim.  The SHA-256 digest of
`User._hash_password` (lines 473-475) is kept abstract: every function
below takes the hash function as an explicit argument, so the theorems
hold for the real digest in particular. -/
structure User where
  username : String
  email : String
  passwordHash : String
  addresses : List Address
  isActive : Bool
deriving DecidableEq

/-- `User.__init__` (lines 431-439): stores the hash of the given
password, an empty address list and the active flag. -/
def User.make (hash : String → String) (username email password : String) : User :=
  { username := username, email := email, passwordHash := hash password,
    addresses := [], isActive := true }

/-- `User.verify_password` (lines 477-479): hash the supplied
credential and compare with the stored hash. -/
def User.verifyPassword (hash : String → String) (u : User) (password : String) : Bool :=
  hash password == u.passwordHash

/-- `User.change_password` (lines 481-490): returns `False` without
touching anything when the old credential fails verification; raises
when the new password is shorter than 8 characters; otherwise stores
the new hash and returns `True`. -/
def User.changePassword (hash : String → String) (u : User) (oldPassword newPassword : String) :
    Except String (Bool × User) :=
  if User.verifyPassword hash u oldPassword = false then .ok (false, u)
  else if newPassword.length < 8 then .error "Password must be at least 8 characters"
  else .ok (true, { u with passwordHash := hash newPassword })

/-- `User.add_address` (lines 492-495): append the address unless an
equal one (under `Address.__eq__`) is already stored. -/
def User.addAddress (u : User) (address : Address) : User :=
  if u.addresses.any (fun x => Address.pyEq x address) then u
  else { u with addresses := u.addresses ++ [address] }

/-- The message a `BankAccount` method hands back
(03_encapsulation.py): each constructor stands for one of the literal
strings returned by `withdraw` (lines 120-145) and `set_pin`
(lines 61-79); the formatted dollar amounts inside the success and
insufficient-funds strings are carried by the surrounding state. -/
inductive AcctMsg where
  | locked
  | invalidPin
  | mustBePositive
  | insufficientFunds
  | pinFormat
  | pinSet
  | success
deriving DecidableEq

/-- `BankAccount` (03_encapsulation.py, lines 20-59): owner name,
balance, optional PIN, lock flag and transaction history.  History
entries keep the (type, amount, description) triple of
`__add_transaction` (lines 176-190); its timestamp is wall-clock and
outside the model, and the class-level account-number counter is
global mutable state with no part in any claim. -/
structure BankAccount where
  ownerName : String
  balance : ℚ
  pin : Option String
  isLocked : Bool
  history : List (String × ℚ × String)
deriving DecidableEq

/-- `BankAccount.__init__` (lines 29-59): rejects a negative opening
balance, starts unlocked with no PIN. -/
def BankAccount.make (owner : String) (initialBalance : ℚ) : Except String BankAccount :=
  if initialBalance < 0 then .error "Initial balance cannot be negative"
  else .ok { ownerName := owner, balance := initialBalance, pin := none,
             isLocked := false, history := [] }

/-- `BankAccount.set_pin` (lines 61-79): refuses when locked or when
the PIN is not a 4-digit string, otherwise records the PIN.  Like
every other method of this class it returns its message rather than
raising, so the embedding marks every path `.ok`. -/
def BankAccount.setPin (a : BankAccount) (newPin : String) :
    Except String (AcctMsg × BankAccount) :=
  if a.isLocked then .ok (.locked, a)
  else if ¬(newPin.length = 4 ∧ newPin.data.all Char.isDigit) then .ok (.pinFormat, a)
  else .ok (.pinSet, { a with pin := some newPin,
                              history := a.history ++ [("PIN_SET", 0, "PIN has been set")] })

/-- `BankAccount.verify_pin` (lines 81-93): `False` when no PIN is
set, otherwise string comparison. -/
def BankAccount.verifyPin (a : BankAccount) (enteredPin : String) : Bool :=
  match a.pin with
  | none => false
  | some p => p == enteredPin

/-- `BankAccount.withdraw` (lines 120-145).  The method contains no
`raise` statement: every outcome, the refusals included, is a normal
return carrying a message, so every path of the embedding is `.ok`.
Only the final path touches the balance. -/
def BankAccount.withdraw (a : BankAccount) (amount : ℚ) (pin : String) :
    Except String (AcctMsg × BankAccount) :=
  if a.isLocked then .ok (.locked, a)
  else if a.verifyPin pin = false then .ok (.invalidPin, a)
  else if amount ≤ 0 then .ok (.mustBePositive, a)
  else if a.balance < amount then .ok (.insufficientFunds, a)
  else .ok (.success, { a with balance := a.balance - amount,
                               history := a.history ++ [("WITHDRAWAL", -amount, "Withdrew")] })

/-! ## Concrete objects used by witnesses and counterexamples

These mirror the objects built in `demonstrate_ecommerce_system`
(lines 886-1053): a book priced 29.99 USD, a user, an address, a cart
holding the book, and accounts derived from them. -/

/-- A stand-in for the SHA-256 digest in witness statements; the user
theorems are proved for an arbitrary hash function. -/
def hashW : String → String := fun s => s

def addrW : Address :=
  ⟨"123 Main St", "Anytown", "CA", "12345", "USA"⟩

/-- Same street, city, state and zip as `addrW`; different country. -/
def addrW2 : Address :=
  ⟨"123 Main St", "Anytown", "CA", "12345", "Canada"⟩

def bookP : ProductData :=
  ⟨"Python OOP Guide", ⟨29.99, "USD"⟩, "By John Doe", true,
   .book "John Doe" "978-1234567890" 350⟩

def storeB : Store := fun _ => bookP

/-- A product priced in euros: legal for `Money.__init__`, which
accepts any currency string. -/
def camP : ProductData :=
  ⟨"Camera", ⟨10, "EUR"⟩, "B M", true, .electronics "B" "M" 2 12⟩

def storeEUR : Store := fun _ => camP

/-- The order `Order.make storeB [⟨1, 2⟩] addrW` evaluates to. -/
def orderW : Order := ⟨[⟨1, 2⟩], addrW, "Pending", none, none⟩

def orderPend : Order := ⟨[⟨1, 1⟩], addrW, "Pending", none, none⟩

def orderShip : Order := ⟨[⟨1, 1⟩], addrW, "Shipped", none, none⟩

/-- An unlocked account holding 100 with PIN `"1234"` set, the state
after `BankAccount.make "Alice" 100` followed by `set_pin "1234"`. -/
def acctW : BankAccount :=
  ⟨"Alice", 100, some "1234", false, [("PIN_SET", 0, "PIN has been set")]⟩

def userW : User := User.make hashW "john" "john@example.com" "secret123"

/-- A user already owning `addrW`. -/
def userA : User :=
  { username := "jo", email := "j@e.com", passwordHash := "pw",
    addresses := [addrW], isActive := true }

/-! ## Rounding lemmas -/

lemma roundHalfEven_intCast (n : ℤ) : roundHalfEven (n : ℚ) = n := by
  unfold roundHalfEven
  rw [Int.floor_intCast]
  norm_num

/-- `round(x, 2)` is the identity on exact two-decimal amounts. -/
lemma round2_den_one {q : ℚ} (h : (q * 100).den = 1) : round2 q = q := by
  obtain ⟨n, hn⟩ : ∃ n : ℤ, q * 100 = (n : ℚ) :=
    ⟨(q * 100).num, (Rat.coe_int_num_of_den_eq_one h).symm⟩
  have h100 : (100 : ℚ) ≠ 0 := by norm_num
  unfold round2
  rw [hn, roundHalfEven_intCast, ← hn, mul_div_cancel_right₀ _ h100]

lemma roundHalfEven_nonneg {q : ℚ} (h : 0 ≤ q) : 0 ≤ roundHalfEven q := by
  have hf : 0 ≤ ⌊q⌋ := Int.floor_nonneg.mpr h
  unfold roundHalfEven
  split_ifs <;> omega

lemma round2_nonneg {q : ℚ} (h : 0 ≤ q) : 0 ≤ round2 q := by
  have : 0 ≤ roundHalfEven (q * 100) := roundHalfEven_nonneg (by positivity)
  unfold round2
  positivity

/-- The output of `round(x, 2)` is an exact two-decimal amount. -/
lemma round2_mul100_den (q : ℚ) : (round2 q * 100).den = 1 := by
  unfold round2
  rw [div_mul_cancel₀ _ (by norm_num : (100 : ℚ) ≠ 0)]
  exact Rat.den_intCast _

lemma den_one_add {x y : ℚ} (hx : (x * 100).den = 1) (hy : (y * 100).den = 1) :
    ((x + y) * 100).den = 1 := by
  obtain ⟨m, hm⟩ : ∃ n : ℤ, x * 100 = (n : ℚ) :=
    ⟨(x * 100).num, (Rat.coe_int_num_of_den_eq_one hx).symm⟩
  obtain ⟨n, hn⟩ : ∃ n : ℤ, y * 100 = (n : ℚ) :=
    ⟨(y * 100).num, (Rat.coe_int_num_of_den_eq_one hy).symm⟩
  have : (x + y) * 100 = ((m + n : ℤ) : ℚ) := by push_cast; rw [← hm, ← hn]; ring
  rw [this]
  exact Rat.den_intCast _

lemma den_one_mul_intCast {x : ℚ} (h : (x * 100).den = 1) (k : ℤ) :
    ((x * k) * 100).den = 1 := by
  obtain ⟨m, hm⟩ : ∃ n : ℤ, x * 100 = (n : ℚ) :=
    ⟨(x * 100).num, (Rat.coe_int_num_of_den_eq_one h).symm⟩
  have : (x * k) * 100 = ((m * k : ℤ) : ℚ) := by push_cast; rw [← hm]; ring
  rw [this]
  exact Rat.den_intCast _

/-- Round-half-to-even lands within half a unit of its argument. -/
lemma abs_roundHalfEven_sub (q : ℚ) : |(roundHalfEven q : ℚ) - q| ≤ 1/2 := by
  have h1 : (⌊q⌋ : ℚ) ≤ q := Int.floor_le q
  have h2 : q < ⌊q⌋ + 1 := Int.lt_floor_add_one q
  unfold roundHalfEven
  split_ifs with hlt hgt heven <;> rw [abs_le] <;> constructor <;> push_cast <;> linarith

/-- `round(x, 2)` lands within half a cent of its argument. -/
lemma abs_round2_sub (q : ℚ) : |round2 q - q| ≤ 1/200 := by
  have h := abs_roundHalfEven_sub (q * 100)
  unfold round2
  rw [show (roundHalfEven (q * 100) : ℚ) / 100 - q
        = ((roundHalfEven (q * 100) : ℚ) - q * 100) / 100 by ring,
      abs_div]
  rw [show |(100 : ℚ)| = 100 by norm_num]
  calc |(roundHalfEven (q * 100) : ℚ) - q * 100| / 100
      ≤ (1/2) / 100 := by
        exact div_le_div_of_nonneg_right h (by norm_num) |>.trans_eq rfl
    _ = 1/200 := by norm_num

/-! ## Money lemmas -/

lemma pyUpper_usd : pyUpper "USD" = "USD" := by decide

lemma Money.make_eq {a : ℚ} (c : String) (h : 0 ≤ a) :
    Money.make a c = .ok ⟨round2 a, pyUpper c⟩ := by
  unfold Money.make
  rw [if_neg (not_lt.mpr h)]

/-- Adding two well-formed USD amounts: the constructor re-rounds, but
a sum of two-decimal amounts is two-decimal, so nothing changes. -/
lemma Money.add_usd {x y : ℚ} (hx : 0 ≤ x) (hy : 0 ≤ y)
    (hdx : (x * 100).den = 1) (hdy : (y * 100).den = 1) :
    Money.add ⟨x, "USD"⟩ ⟨y, "USD"⟩ = .ok ⟨x + y, "USD"⟩ := by
  unfold Money.add
  rw [if_neg (by simp), Money.make_eq _ (add_nonneg hx hy), pyUpper_usd,
      round2_den_one (den_one_add hdx hdy)]

/-- `CartItem.total_price` on a well-formed USD product line. -/
lemma totalPrice_eq {s : Store} {it : CartItem} (hq : 0 < it.quantity)
    (hcur : (s it.productId).price.currency = "USD")
    (hnn : 0 ≤ (s it.productId).price.amount)
    (hden : ((s it.productId).price.amount * 100).den = 1) :
    CartItem.totalPrice s it =
      .ok ⟨(s it.productId).price.amount * (it.quantity : ℚ), "USD"⟩ := by
  have hq0 : (0 : ℚ) ≤ (it.quantity : ℚ) := by exact_mod_cast hq.le
  unfold CartItem.totalPrice Money.mul
  rw [if_neg (not_lt.mpr hq0), Money.make_eq _ (mul_nonneg hnn hq0), hcur, pyUpper_usd,
      round2_den_one (den_one_mul_intCast hden it.quantity)]

/-! ## Claim theorems -/

/-- Claim C8: for every non-negative amount `a`, `Money(a).amount` is
`a` rounded to two decimal places: it is an exact multiple of 1/100
(no third decimal survives construction) and lies within half a cent
of `a`. -/
theorem money_make_rounds_to_cents (a : ℚ) (ha : 0 ≤ a) :
    Money.make a "USD" = .ok ⟨round2 a, "USD"⟩
    ∧ (round2 a * 100).den = 1
    ∧ |round2 a - a| ≤ 1/200 := by
  refine ⟨?_, round2_mul100_den a, abs_round2_sub a⟩
  rw [Money.make_eq _ ha, pyUpper_usd]

/-- Witness for C8 at `a = 0.001`: the third decimal is dropped, the
stored amount is `0`. -/
theorem money_make_rounds_to_cents_witness :
    Money.make 0.001 "USD" = .ok ⟨0, "USD"⟩ := by
  have h := (money_make_rounds_to_cents 0.001 (by norm_num)).1
  rw [h]
  norm_num [round2, roundHalfEven]

/-- Counterexample to claim C3 as stated: `Money(0.001) + Money(0)`
has amount `0`, not `0.001 + 0`, because construction rounds each
amount to two decimals. -/
theorem money_add_drops_third_decimal :
    (do
      let x ← Money.make 0.001 "USD"
      let y ← Money.make 0 "USD"
      Money.add x y) = Except.ok (⟨0, "USD"⟩ : Money)
    ∧ ((0 : ℚ) = 0.001 + 0) = False := by
  constructor
  · have h1 : Money.make 0.001 "USD" = .ok ⟨0, "USD"⟩ := by
      rw [Money.make_eq _ (by norm_num), pyUpper_usd]
      norm_num [round2, roundHalfEven]
    have h2 : Money.make 0 "USD" = .ok ⟨0, "USD"⟩ := by
      rw [Money.make_eq _ (by norm_num), pyUpper_usd, round2_den_one (by norm_num)]
    rw [h1, h2]
    show Money.add ⟨0, "USD"⟩ ⟨0, "USD"⟩ = Except.ok (⟨0, "USD"⟩ : Money)
    simpa using Money.add_usd le_rfl le_rfl
      (by norm_num : ((0 : ℚ) * 100).den = 1) (by norm_num : ((0 : ℚ) * 100).den = 1)
  · exact eq_false (by norm_num)

/-- Claim C3 (amended): for non-negative `a`, `b`,
`(Money(a) + Money(b)).amount` equals `round2 a + round2 b`; in
particular it equals `a + b` whenever `a` and `b` are exact
two-decimal amounts. -/
theorem money_add_amount_eq (a b : ℚ) (ha : 0 ≤ a) (hb : 0 ≤ b) :
    (do
      let x ← Money.make a "USD"
      let y ← Money.make b "USD"
      Money.add x y) = Except.ok (⟨round2 a + round2 b, "USD"⟩ : Money)
    ∧ ((a * 100).den = 1 → (b * 100).den = 1 → round2 a + round2 b = a + b) := by
  constructor
  · rw [Money.make_eq _ ha, Money.make_eq _ hb, pyUpper_usd]
    show Money.add ⟨round2 a, "USD"⟩ ⟨round2 b, "USD"⟩
        = Except.ok (⟨round2 a + round2 b, "USD"⟩ : Money)
    exact Money.add_usd (round2_nonneg ha) (round2_nonneg hb)
      (round2_mul100_den a) (round2_mul100_den b)
  · intro h1 h2
    rw [round2_den_one h1, round2_den_one h2]

/-- Witness for C3 at two-decimal amounts `a = 29.99`, `b = 15.50`:
the sum is exactly `45.49`. -/
theorem money_add_amount_eq_witness :
    (do
      let x ← Money.make 29.99 "USD"
      let y ← Money.make 15.50 "USD"
      Money.add x y) = Except.ok (⟨45.49, "USD"⟩ : Money) := by
  have h := money_add_amount_eq 29.99 15.50 (by norm_num) (by norm_num)
  have he : round2 29.99 + round2 15.50 = 29.99 + 15.50 :=
    h.2 (by norm_num) (by norm_num)
  rw [h.1, he]
  norm_num

/-- Counterexample to claim C1 as stated: cancelling an order twice
succeeds.  After the first `cancel_order` the status is `"Cancelled"`,
which is none of Pending, Paid or Payment Failed, yet the second
`cancel_order` succeeds as well, so "succeeds exactly when the status
is Pending, Paid, or Payment Failed" fails at status `"Cancelled"`. -/
theorem cancel_on_cancelled_succeeds :
    (do
      let o ← Order.make storeB [⟨1, 1⟩] addrW
      let o1 ← Order.cancelOrder o
      let o2 ← Order.cancelOrder o1
      pure (o1.status, o2.status)) = Except.ok ("Cancelled", "Cancelled")
    ∧ ("Cancelled" ∈ ["Pending", "Paid", "Payment Failed"]) = False := by
  exact ⟨by decide, eq_false (by decide)⟩

/-- Claim C1 (amended): `cancel_order` succeeds (the status becomes
`"Cancelled"`) exactly when the current status is neither `"Shipped"`
nor `"Delivered"` — so from Pending, Paid and Payment Failed, but
also from Cancelled; on a shipped or delivered order it raises a
state-violation error, leaving the order untouched. -/
theorem cancel_order_characterization (o : Order) :
    (¬(o.status = "Shipped" ∨ o.status = "Delivered") →
        Order.cancelOrder o = .ok { o with status := "Cancelled" })
    ∧ ((o.status = "Shipped" ∨ o.status = "Delivered") →
        Order.cancelOrder o = .error "Cannot cancel shipped or delivered order") := by
  constructor <;> intro h <;> unfold Order.cancelOrder
  · rw [if_neg h]
  · rw [if_pos h]

/-- Witness for C1: a pending order cancels; a shipped order does
not. -/
theorem cancel_order_characterization_witness :
    Order.cancelOrder orderPend = .ok { orderPend with status := "Cancelled" }
    ∧ Order.cancelOrder orderShip = .error "Cannot cancel shipped or delivered order" :=
  ⟨(cancel_order_characterization orderPend).1 (by decide),
   (cancel_order_characterization orderShip).2 (by decide)⟩

/-- Claim C9: a freshly constructed order is `"Pending"` with no
payment method, and `process_payment` on any order whose payment
method was never set raises `"Payment method not set"` — an error
raised before any assignment, so the order state is unchanged. -/
theorem process_payment_without_method_errors (s : Store) (c : Cart) (addr : Address)
    (o o2 : Order) :
    (Order.make s c addr = .ok o → o.status = "Pending" ∧ o.paymentMethod = none)
    ∧ (o2.paymentMethod = none →
        Order.processPayment s o2 = .error "Payment method not set") := by
  constructor
  · intro h
    unfold Order.make at h
    split at h
    · exact Except.noConfusion h
    · split at h
      · exact Except.noConfusion h
      · cases h
        exact ⟨rfl, rfl⟩
  · intro h
    unfold Order.processPayment
    rw [h]

/-- Witness for C9: the fresh order built from the book cart is
pending, has no payment method, and `process_payment` raises. -/
theorem process_payment_without_method_errors_witness :
    (orderW.status = "Pending" ∧ orderW.paymentMethod = none)
    ∧ Order.processPayment storeB orderW = .error "Payment method not set" :=
  ⟨(process_payment_without_method_errors storeB [⟨1, 2⟩] addrW orderW orderW).1 (by decide),
   (process_payment_without_method_errors storeB [⟨1, 2⟩] addrW orderW orderW).2 rfl⟩

/-- Claim C6: `change_password` with an old credential that does not
verify against the stored hash returns `False` and leaves the user —
its stored password hash in particular — unchanged.  Stated for an
arbitrary hash function, hence for SHA-256. -/
theorem change_password_wrong_old_keeps_hash (hash : String → String) (u : User)
    (oldPassword newPassword : String)
    (h : User.verifyPassword hash u oldPassword = false) :
    User.changePassword hash u oldPassword newPassword = .ok (false, u) := by
  unfold User.changePassword
  rw [if_pos h]

/-- Witness for C6: wrong old password, user returned untouched. -/
theorem change_password_wrong_old_keeps_hash_witness :
    User.changePassword hashW userW "wrongpass" "newsecurepass456" = .ok (false, userW) :=
  change_password_wrong_old_keeps_hash hashW userW "wrongpass" "newsecurepass456" (by decide)

/-- Claim C10: `Address.__eq__` compares street, city, state and zip
code only, so `User.add_address` refuses an address that differs from
a stored one only in its country. -/
theorem address_eq_ignores_country (u : User) (a1 a2 : Address)
    (hmem : a1 ∈ u.addresses)
    (hs : a1.street = a2.street) (hc : a1.city = a2.city)
    (hst : a1.state = a2.state) (hz : a1.zipCode = a2.zipCode)
    (hcountry : a1.country ≠ a2.country) :
    Address.pyEq a1 a2 = true ∧ User.addAddress u a2 = u := by
  have hpy : Address.pyEq a1 a2 = true := by
    unfold Address.pyEq
    rw [hs, hc, hst, hz]
    simp
  refine ⟨hpy, ?_⟩
  unfold User.addAddress
  rw [if_pos (List.any_eq_true.mpr ⟨a1, hmem, hpy⟩)]

/-- Witness for C10: `addrW2` differs from the stored `addrW` only in
country and is not added. -/
theorem address_eq_ignores_country_witness :
    Address.pyEq addrW addrW2 = true ∧ User.addAddress userA addrW2 = userA :=
  address_eq_ignores_country userA addrW addrW2 (by decide) rfl rfl rfl rfl (by decide)

/-- Counterexample to claim C7 as stated: an overdraw is not a raised
error.  On an unlocked account holding 100 with the correct PIN,
withdrawing 200 returns normally (`.ok`, i.e. `isOk`) with the
insufficient-funds message and the unchanged account; no exception
propagates to the caller. -/
theorem withdraw_insufficient_returns_message :
    BankAccount.withdraw acctW 200 "1234" = .ok (.insufficientFunds, acctW)
    ∧ (BankAccount.withdraw acctW 200 "1234").isOk = true := by
  have h : BankAccount.withdraw acctW 200 "1234" = .ok (.insufficientFunds, acctW) := by
    unfold BankAccount.withdraw
    rw [if_neg (by decide), if_neg (by decide), if_neg (by norm_num),
        if_pos (by norm_num [acctW])]
  exact ⟨h, by rw [h]; rfl⟩

/-- Claim C7 (amended): with the account unlocked, the PIN correct and
the amount positive but above the balance, `withdraw` returns the
insufficient-funds message as a normal value and leaves the account —
balance included — unchanged. -/
theorem withdraw_insufficient_no_mutation (a : BankAccount) (amount : ℚ) (pin : String)
    (hl : a.isLocked = false) (hp : a.verifyPin pin = true)
    (hpos : 0 < amount) (hbal : a.balance < amount) :
    BankAccount.withdraw a amount pin = .ok (.insufficientFunds, a) := by
  unfold BankAccount.withdraw
  rw [if_neg (by simp [hl]), if_neg (by simp [hp]),
      if_neg (not_le.mpr hpos), if_pos hbal]

/-- Witness for C7 at the concrete account. -/
theorem withdraw_insufficient_no_mutation_witness :
    BankAccount.withdraw acctW 150 "1234" = .ok (.insufficientFunds, acctW) :=
  withdraw_insufficient_no_mutation acctW 150 "1234" rfl (by decide)
    (by norm_num) (by norm_num [acctW])

/-- Claim C5 is broken by the merge path of `add_item`
(lines 705-708): the quantity bump `item.quantity += quantity` is
unvalidated, so adding quantity `-1` of a product already in the cart
leaves a line whose quantity `0` is not positive, with no error
raised.  (`CartItem.__init__` itself rejects non-positive quantities,
so the fresh-line path cannot do this.) -/
theorem add_item_merge_nonpositive_quantity :
    ShoppingCart.addItem storeB [⟨1, 1⟩] 1 (-1) = .ok (storeB, [⟨1, 0⟩])
    ∧ (0 < (({ productId := 1, quantity := 0 } : CartItem)).quantity) = False := by
  exact ⟨rfl, eq_false (by decide)⟩

/-- Claim C2: once an order exists, no subsequent cart operation —
`add_item`, `remove_item`, `update_quantity`, `clear` or
`apply_discount_to_item` — changes the order's line items (the order
owns fresh `CartItem` copies) or its `total_amount`: whenever one of
the five succeeds, the product heap is untouched, so every order
observable computed from it is unchanged.  The first four only edit
the cart's own line list; `apply_discount_to_item` is the one
operation that writes to the shared heap, and it never succeeds
(see `ShoppingCart.applyDiscountToItem` and C2's analysis): the
missing `@runtime_checkable` on `Discountable` makes its `isinstance`
check raise before the price assignment. -/
theorem cart_ops_preserve_order_total (s : Store) (c : Cart) (o : Order)
    (pid : Nat) (q newQuantity : Int) (pct : ℚ) (s1 : Store) (c1 : Cart)
    (h : ShoppingCart.addItem s c pid q = .ok (s1, c1)
       ∨ ShoppingCart.removeItem s c pid = .ok (s1, c1)
       ∨ ShoppingCart.updateQuantity s c pid newQuantity = .ok (s1, c1)
       ∨ ShoppingCart.clear s c = .ok (s1, c1)
       ∨ ShoppingCart.applyDiscountToItem s c pid pct = .ok (s1, c1)) :
    s1 = s ∧ Order.totalAmount s1 o = Order.totalAmount s o := by
  have hs : s1 = s := by
    rcases h with h | h | h | h | h
    · unfold ShoppingCart.addItem at h
      split at h
      · exact Except.noConfusion h
      · split at h
        · cases h; rfl
        · split at h
          · exact Except.noConfusion h
          · cases h; rfl
    · unfold ShoppingCart.removeItem at h
      cases h; rfl
    · unfold ShoppingCart.updateQuantity at h
      split at h
      · unfold ShoppingCart.removeItem at h
        cases h; rfl
      · split at h
        · cases h; rfl
        · exact Except.noConfusion h
    · unfold ShoppingCart.clear at h
      cases h; rfl
    · unfold ShoppingCart.applyDiscountToItem at h
      split at h
      · exact Except.noConfusion h
      · exact Except.noConfusion h
  exact ⟨hs, by rw [hs]⟩

/-- Witness for C2: adding the book to the cart succeeds and leaves
the store, hence the order total, unchanged. -/
theorem cart_ops_preserve_order_total_witness :
    ShoppingCart.addItem storeB [] 1 2 = .ok (storeB, [⟨1, 2⟩])
    ∧ Order.totalAmount storeB orderW = Order.totalAmount storeB orderW :=
  ⟨rfl, (cart_ops_preserve_order_total storeB [] orderW 1 2 0 0 storeB [⟨1, 2⟩]
      (Or.inl rfl)).2⟩

lemma bandedShippingRate_nonneg (w : ℚ) : 0 ≤ bandedShippingRate w := by
  unfold bandedShippingRate
  split_ifs <;> norm_num

lemma bandedShippingRate_den (w : ℚ) : (bandedShippingRate w * 100).den = 1 := by
  unfold bandedShippingRate
  split_ifs <;> norm_num

lemma den_one_list_sum (l : List ℚ) (h : ∀ x ∈ l, (x * 100).den = 1) :
    (l.sum * 100).den = 1 := by
  induction l with
  | nil => norm_num
  | cons a t ih =>
      rw [List.sum_cons]
      exact den_one_add (h a (List.mem_cons_self a t))
        (ih fun x hx => h x (List.mem_cons_of_mem a hx))

/-- `_calculate_shipping` always succeeds with the banded rate: the
rate is non-negative and already two-decimal, so the constructor's
rounding is the identity. -/
lemma calcShipping_eq (s : Store) (o : Order) :
    Order.calcShipping s o = .ok ⟨bandedShippingRate (Order.totalWeight s o), "USD"⟩ := by
  unfold Order.calcShipping
  rw [Money.make_eq _ (bandedShippingRate_nonneg _), pyUpper_usd,
      round2_den_one (bandedShippingRate_den _)]

/-- `_calculate_tax` on a non-negative subtotal: 8.5% rounded to
cents by the constructor. -/
lemma calcTax_eq {st : Money} (h : 0 ≤ st.amount) :
    Order.calcTax st = .ok ⟨round2 (st.amount * 0.085), "USD"⟩ := by
  unfold Order.calcTax
  rw [Money.make_eq _ (mul_nonneg h (by norm_num)), pyUpper_usd]

/-- The fold of `Money.__add__` over well-formed USD lines is the
plain rational sum: each line total is two-decimal, so no rounding
fires anywhere in the fold. -/
lemma sumMoney_spec (s : Store) (items : List CartItem) (init : ℚ)
    (h0 : 0 ≤ init) (hd0 : (init * 100).den = 1)
    (H : ∀ it ∈ items, 0 < it.quantity ∧ (s it.productId).price.currency = "USD"
        ∧ 0 ≤ (s it.productId).price.amount
        ∧ ((s it.productId).price.amount * 100).den = 1) :
    sumMoney s items ⟨init, "USD"⟩
      = .ok ⟨init + (items.map
          (fun it => (s it.productId).price.amount * (it.quantity : ℚ))).sum, "USD"⟩ := by
  induction items generalizing init with
  | nil => simp [sumMoney]
  | cons it rest ih =>
      obtain ⟨hq, hcur, hnn, hden⟩ := H it (List.mem_cons_self it rest)
      have hq0 : (0 : ℚ) ≤ (it.quantity : ℚ) := by exact_mod_cast hq.le
      unfold sumMoney
      rw [totalPrice_eq hq hcur hnn hden]
      dsimp only
      rw [Money.add_usd h0 (mul_nonneg hnn hq0) hd0 (den_one_mul_intCast hden it.quantity)]
      dsimp only
      rw [ih (init + (s it.productId).price.amount * (it.quantity : ℚ))
            (add_nonneg h0 (mul_nonneg hnn hq0))
            (den_one_add hd0 (den_one_mul_intCast hden it.quantity))
            (fun x hx => H x (List.mem_cons_of_mem it hx))]
      rw [List.map_cons, List.sum_cons]
      congr 1
      ring_nf

/-- Counterexample to claim C4 as stated: an order holding a product
priced in euros has no total at all.  The subtotal fold starts from
`Money(0)` in USD, and `Money.__add__` raises on the first line. -/
theorem order_total_currency_mismatch :
    (match Order.make storeEUR [⟨1, 1⟩] addrW with
      | .error e => .error e
      | .ok o => Order.totalAmount storeEUR o)
      = (.error "Cannot add USD and EUR" : Except String Money) := by
  have h1 : Order.make storeEUR [⟨1, 1⟩] addrW = .ok ⟨[⟨1, 1⟩], addrW, "Pending", none, none⟩ :=
    rfl
  rw [h1]
  show Order.totalAmount storeEUR ⟨[⟨1, 1⟩], addrW, "Pending", none, none⟩ = _
  have ht : CartItem.totalPrice storeEUR ⟨1, 1⟩ = .ok ⟨10, "EUR"⟩ := by
    show Money.mul ⟨10, "EUR"⟩ ((1 : Int) : ℚ) = .ok ⟨10, "EUR"⟩
    unfold Money.mul
    rw [if_neg (by norm_num), Money.make_eq _ (by norm_num),
        round2_den_one (by norm_num)]
    norm_num
    decide
  have hsub : Order.subtotal storeEUR ⟨[⟨1, 1⟩], addrW, "Pending", none, none⟩
      = .error "Cannot add USD and EUR" := by
    show sumMoney storeEUR [⟨1, 1⟩] ⟨0, "USD"⟩ = _
    unfold sumMoney
    rw [ht]
    dsimp only
    unfold Money.add
    rw [if_pos (by decide)]
    rfl
  unfold Order.totalAmount
  rw [hsub]

/-- Claim C4 (amended): for every order whose line items point at
in-store products priced in USD with well-formed amounts (non-negative
and two-decimal, as every constructed `Money` is) and positive
quantities (as every constructed order has), `total_amount` is exactly
subtotal + weight-banded shipping + tax, where the subtotal is the
plain sum of per-line totals, shipping is banded by total shipping
weight, and the tax is 8.5% of the subtotal rounded to cents. -/
theorem order_total_decomposition (s : Store) (o : Order)
    (H : ∀ it ∈ o.items, 0 < it.quantity ∧ (s it.productId).price.currency = "USD"
        ∧ 0 ≤ (s it.productId).price.amount
        ∧ ((s it.productId).price.amount * 100).den = 1) :
    Order.totalAmount s o
      = .ok ⟨orderLineSum s o + bandedShippingRate (Order.totalWeight s o)
              + round2 (orderLineSum s o * 0.085), "USD"⟩ := by
  have hsub : Order.subtotal s o = .ok ⟨orderLineSum s o, "USD"⟩ := by
    have h := sumMoney_spec s o.items 0 le_rfl (by norm_num) H
    unfold Order.subtotal orderLineSum
    rw [h, zero_add]
  have hnn : 0 ≤ orderLineSum s o := by
    unfold orderLineSum
    apply List.sum_nonneg
    intro x hx
    obtain ⟨it, hit, rfl⟩ := List.mem_map.mp hx
    obtain ⟨hq, _, hp, _⟩ := H it hit
    exact mul_nonneg hp (by exact_mod_cast hq.le)
  have hden : (orderLineSum s o * 100).den = 1 := by
    unfold orderLineSum
    apply den_one_list_sum
    intro x hx
    obtain ⟨it, hit, rfl⟩ := List.mem_map.mp hx
    obtain ⟨_, _, _, hd⟩ := H it hit
    exact den_one_mul_intCast hd it.quantity
  unfold Order.totalAmount
  rw [hsub]
  dsimp only
  rw [calcShipping_eq]
  dsimp only
  rw [calcTax_eq hnn]
  dsimp only
  rw [Money.add_usd hnn (bandedShippingRate_nonneg _) hden (bandedShippingRate_den _)]
  dsimp only
  rw [Money.add_usd (add_nonneg hnn (bandedShippingRate_nonneg _))
        (round2_nonneg (mul_nonneg hnn (by norm_num)))
        (den_one_add hden (bandedShippingRate_den _))
        (round2_mul100_den _)]

/-- Witness for C4: the order holding two copies of the 29.99 USD book
(350 pages, so 3.5 lb total) totals 59.98 + 9.99 + 5.10 = 75.07. -/
theorem order_total_decomposition_witness :
    Order.totalAmount storeB orderW = .ok ⟨75.07, "USD"⟩ := by
  have h := order_total_decomposition storeB orderW (by
    intro it hit
    have : it = ⟨1, 2⟩ := by
      simpa [orderW] using hit
    subst this
    refine ⟨by norm_num, rfl, by norm_num [storeB, bookP], by norm_num [storeB, bookP]⟩)
  rw [h]
  have hsum : orderLineSum storeB orderW = 59.98 := by
    norm_num [orderLineSum, orderW, storeB, bookP]
  have hw : Order.totalWeight storeB orderW = 3.5 := by
    norm_num [Order.totalWeight, orderW, storeB, bookP, ProductData.shippingWeight,
              max_def]
  rw [hsum, hw]
  have hband : bandedShippingRate 3.5 = 9.99 := by
    norm_num [bandedShippingRate]
  have htax : round2 (59.98 * 0.085) = 5.1 := by
    norm_num [round2, roundHalfEven]
  rw [hband, htax]
  norm_num
